import Mathlib

/-!
Shallow embedding of the APKES key-establishment core
(core/net/llsec/coresec/apkes.c) and the flash keying-material helper
(platform/sky/apkes-flash.c), together with theorems about the
handshake handlers, the bootstrap driver and the flash append-log.

External collaborators (scheme provider, link-layer security module,
neighbor table, CSPRNG, clocks, xmem driver) are modelled as explicit
oracle parameters or, where their code is absent from the repository,
as definitions marked as modelled from the specification.
-/

namespace Apkes

/-! ### Build-time constants (apkes.c defaults) -/

/-- Modelled from the spec: NEIGHBOR_PAIRWISE_KEY_LEN lives in the absent
neighbor.h; the spec fixes the pairwise key at 16 bytes. -/
def NEIGHBOR_PAIRWISE_KEY_LEN : Nat := 16

/-- CHALLENGE_LEN = NEIGHBOR_PAIRWISE_KEY_LEN/2 (apkes.c line 93). -/
def CHALLENGE_LEN : Nat := NEIGHBOR_PAIRWISE_KEY_LEN / 2

/-- Modelled from the spec: NEIGHBOR_SHORT_ADDR_LEN lives in the absent
neighbor.h; the spec fixes the short link address at 16 bits. -/
def NEIGHBOR_SHORT_ADDR_LEN : Nat := 2

/-- Modelled from the spec: NEIGHBOR_BROADCAST_KEY_LEN lives in the absent
neighbor.h. In the configuration without EBEAP encryption the HELLOACK
trailer is the short address alone and no broadcast-key bytes exist in any
frame, so the length is 0 (consistent with send_ack, whose datalen counts
NEIGHBOR_BROADCAST_KEY_LEN unconditionally while writing no key bytes). -/
def NEIGHBOR_BROADCAST_KEY_LEN : Nat := 0

/-- Modelled from the spec: the platform clock tick rate is external to the
repository; on the sky platform one second is 128 ticks. -/
def CLOCK_SECOND : Nat := 128

/-- ROUNDS default (apkes.c line 61). -/
def ROUNDS : Nat := 6

/-- ROUND_DURATION default, 7 seconds of ticks (apkes.c line 67). -/
def ROUND_DURATION : Nat := 7 * CLOCK_SECOND

/-- MAX_WAITING_PERIOD default (apkes.c line 79). -/
def MAX_WAITING_PERIOD : Nat := ROUND_DURATION - 2 * CLOCK_SECOND

/-- ACK_DELAY default (apkes.c line 85). -/
def ACK_DELAY : Nat := 5 * CLOCK_SECOND

/-- Modelled from the spec: RANDOM_RAND_MAX lives in the external
lib/random.h; the weak PRNG yields 16-bit values, maximum 65535. -/
def RANDOM_RAND_MAX : Nat := 65535

/-- Little-endian byte pair of a 16-bit value, as memcpy of a uint16
produces on the MSP430. -/
def leBytes2 (v : Nat) : List Nat := [v % 256, v / 256 % 256]

/-! ### Neighbor data model -/

/-- Neighbor lifecycle status (spec section 3; neighbor.h is absent). -/
inductive NeighborStatus where
  | TENTATIVE
  | TENTATIVE_AWAITING_ACK
  | PERMANENT
deriving DecidableEq

/-- Pair of link-layer addresses identifying a neighbor. -/
structure NeighborIds where
  short_addr : Nat
  extended_addr : Nat
deriving DecidableEq

/-- Modelled from the spec: neighbor_update_ids lives in the absent
neighbor.c. It reads NEIGHBOR_SHORT_ADDR_LEN little-endian bytes at the
given position and derives both addresses of the identity from them. -/
def neighbor_update_ids (bytes : List Nat) : NeighborIds :=
  let s : Nat := bytes.getD 0 0 + 256 * bytes.getD 1 0
  { short_addr := s, extended_addr := s }

/-- The neighbor entry (spec section 3; struct neighbor is in the absent
neighbor.h). The anti-replay bookkeeping is kept outside the entry and
supplied as an oracle where a handler consults it. -/
structure Neighbor where
  ids : NeighborIds
  status : NeighborStatus
  pairwise_key : List Nat
  metadata : List Nat
  local_index : Nat
  expiration_time : Nat
deriving DecidableEq

/-- Modelled from the spec: neighbor_update lives in the absent neighbor.c.
It consumes the opaque EBEAP trailer and promotes the entry to PERMANENT. -/
def neighbor_update (n : Neighbor) (_trailer : List Nat) : Neighbor :=
  { n with status := .PERMANENT }

/-- generate_pairwise_key (apkes.c lines 120-125): derive the pairwise key
by encrypting the metadata (both challenges) under the long-term shared
secret. The AES-128 padded-encrypt primitive is external and passed in. -/
def generate_pairwise_key (aes : List Nat → List Nat → List Nat)
    (neighbor : Neighbor) (shared_secret : List Nat) : Neighbor :=
  { neighbor with pairwise_key := aes shared_secret neighbor.metadata }

/-! ### HELLOACK payload (configuration without EBEAP encryption) -/

/-- Payload written by send_helloack (apkes.c lines 236-245), in the
configuration without EBEAP encryption: both challenges from the receiver
metadata, the one-byte local index, then this node short address. -/
def send_helloack_payload (receiver : Neighbor) (node_id : Nat) : List Nat :=
  receiver.metadata.take (2 * CHALLENGE_LEN) ++
    ([receiver.local_index % 256] ++ leBytes2 node_id)

/-- Identity recovery of on_helloack (apkes.c lines 273-276), configuration
without EBEAP encryption: the short address is read from the payload after
the challenges, the index byte and the (empty) broadcast-key field. -/
def helloack_recover_ids (payload : List Nat) : NeighborIds :=
  neighbor_update_ids
    (payload.drop (2 * CHALLENGE_LEN + 1 + NEIGHBOR_BROADCAST_KEY_LEN))

/-! ### on_helloack -/

/-- Oracle results of the external calls made by on_helloack. -/
structure HelloackEnv where
  get_secret_with_helloack_sender : NeighborIds → Option (List Nat)
  coresec_decrypt_verify_unicast : List Nat → Bool
  anti_replay_was_replayed : Bool
  neighbor_new : Option Neighbor
  aes_128_padded_encrypt : List Nat → List Nat → List Nat

/-- Observable outcome of on_helloack on program state: either the handler
returns without creating or modifying any neighbor entry and without
sending an ACK (drop), or it commits an entry (modified, or newly created
when isNew) and sends an ACK to it. -/
inductive HelloackEffect where
  | drop
  | commit (n : Neighbor) (isNew : Bool)
deriving DecidableEq

/-- on_helloack (apkes.c lines 259-312), configuration without EBEAP
encryption. Recover the peer identity from the payload trailer, look up
the long-term secret, verify the frame under the reconstructed candidate
key, check the echoed challenge, then dispatch on the sender status. -/
def on_helloack (env : HelloackEnv) (our_challenge payload : List Nat)
    (sender : Option Neighbor) : HelloackEffect :=
  let ids := helloack_recover_ids payload
  match env.get_secret_with_helloack_sender ids with
  | none => .drop
  | some key =>
    if env.coresec_decrypt_verify_unicast key = false then .drop
    else if payload.take CHALLENGE_LEN ≠ our_challenge then .drop
    else
      let commitNeighbor : Neighbor → Bool → HelloackEffect := fun n isNew =>
        let n1 := { n with metadata := payload.take (2 * CHALLENGE_LEN) }
        let n2 := generate_pairwise_key env.aes_128_padded_encrypt n1 key
        let n3 := { n2 with ids := ids }
        .commit (neighbor_update n3 (payload.drop (2 * CHALLENGE_LEN))) isNew
      match sender with
      | some n =>
        match n.status with
        | .PERMANENT =>
          if env.anti_replay_was_replayed then .drop else commitNeighbor n false
        | .TENTATIVE => commitNeighbor n false
        | .TENTATIVE_AWAITING_ACK => .drop
      | none =>
        match env.neighbor_new with
        | none => .drop
        | some fresh => commitNeighbor fresh true

/-! ### on_ack -/

/-- on_ack (apkes.c lines 341-354). Returns the updated entry when
neighbor_update is called, none when the handler drops the frame and
changes nothing. -/
def on_ack (coresec_decrypt_verify_unicast : List Nat → Bool)
    (sender : Option Neighbor) (payload : List Nat) : Option Neighbor :=
  match sender with
  | none => none
  | some n =>
    if n.status = .TENTATIVE_AWAITING_ACK then
      if coresec_decrypt_verify_unicast n.pairwise_key then
        some (neighbor_update n payload)
      else none
    else none

/-! ### wait_callback -/

/-- wait_callback (apkes.c lines 204-219). Input: the guarded neighbor and
the number of free wait-timer slots. Output: the neighbor afterwards, the
free-slot count afterwards, and whether a HELLOACK was sent. -/
def wait_callback (neighbor : Neighbor) (freeWaitTimers : Nat) :
    Neighbor × Nat × Bool :=
  if neighbor.status = .TENTATIVE then
    ({ neighbor with status := .TENTATIVE_AWAITING_ACK }, freeWaitTimers + 1, true)
  else
    (neighbor, freeWaitTimers + 1, false)

/-! ### on_hello -/

/-- waiting_period computed by on_hello (apkes.c line 193): the product is
taken in 32-bit unsigned arithmetic. -/
def waiting_period (r : Nat) : Nat :=
  MAX_WAITING_PERIOD * r % 2 ^ 32 / RANDOM_RAND_MAX

/-- Oracle results of the external calls made by on_hello. -/
structure HelloEnv where
  neighbor_new : Option Neighbor
  csprng_challenge : List Nat
  random_rand : Nat
  clock_seconds : Nat

/-- on_hello (apkes.c lines 165-202). Input: the free wait-timer slot
count, the known-sender lookup result and the payload. Output: the
free-slot count afterwards and, when a tentative neighbor was created,
the new entry together with the armed ctimer delay. -/
def on_hello (env : HelloEnv) (freeWaitTimers : Nat)
    (sender : Option Neighbor) (payload : List Nat) :
    Nat × Option (Neighbor × Nat) :=
  if freeWaitTimers = 0 then
    (freeWaitTimers, none)
  else
    match sender with
    | some _ => (freeWaitTimers - 1 + 1, none)
    | none =>
      match env.neighbor_new with
      | none => (freeWaitTimers - 1 + 1, none)
      | some fresh =>
        (freeWaitTimers - 1,
         some ({ fresh with
                   status := .TENTATIVE,
                   ids := neighbor_update_ids (payload.drop CHALLENGE_LEN),
                   metadata := payload.take CHALLENGE_LEN ++ env.csprng_challenge,
                   expiration_time :=
                     env.clock_seconds + (MAX_WAITING_PERIOD + ACK_DELAY) / CLOCK_SECOND },
               waiting_period env.random_rand))

/-! ### Bootstrap driver -/

/-- Observable events of the apkes_process protothread. -/
inductive BootEvent where
  | helloBroadcast
  | roundWait
  | bootstrappedCall
deriving DecidableEq

/-- Event trace of apkes_process (apkes.c lines 376-396) as a function of
the round count: each loop iteration broadcasts a HELLO and suspends until
the round timer expires (the timer is rearmed on every round but the
last); after the loop the callback is invoked and nulled. -/
def apkes_process_events : Nat → List BootEvent
  | 0 => [.bootstrappedCall]
  | k + 1 => .helloBroadcast :: .roundWait :: apkes_process_events k

/-- The trace of apkes_process at the default ROUNDS. -/
def apkes_trace : List BootEvent := apkes_process_events ROUNDS

/-- State observed by is_bootstrapped: whether the on_bootstrapped
callback reference is non-null, and how often it has been invoked. -/
structure BootState where
  on_bootstrapped : Bool
  calls : Nat
deriving DecidableEq

/-- Effect of one trace event on the bootstrap state: only the final event
invokes the callback and nulls the reference (apkes.c lines 392-393). -/
def bootStep (s : BootState) : BootEvent → BootState
  | .bootstrappedCall => { on_bootstrapped := false, calls := s.calls + 1 }
  | _ => s

/-- bootstrap (apkes.c lines 398-405): stores the callback reference; no
invocation has happened yet. -/
def bootstrap : BootState :=
  { on_bootstrapped := true, calls := 0 }

/-- Run a prefix of the trace from a bootstrap state. -/
def runBoot (s : BootState) (events : List BootEvent) : BootState :=
  events.foldl bootStep s

/-- is_bootstrapped (apkes.c lines 407-411): the callback reference is
null. -/
def is_bootstrapped (s : BootState) : Bool :=
  !s.on_bootstrapped

/-! ### Flash keying-material helper (platform/sky/apkes-flash.c) -/

/-- Modelled from the spec: XMEM_ERASE_UNIT_SIZE lives in the external
dev/xmem.h of the sky platform; one erase unit is 64 KiB. -/
def XMEM_ERASE_UNIT_SIZE : Nat := 65536

/-- Modelled from the spec: xmem_erase is the external flash driver; it
sets every byte of the region to the erased value 0xFF. -/
def xmem_erase (mem : Nat → Nat) (size offset : Nat) : Nat → Nat :=
  fun a => if offset ≤ a ∧ a < offset + size then 0xFF else mem a

/-- Modelled from the spec: xmem_pwrite is the external flash driver; it
writes the buffer bytes at the absolute offset. -/
def xmem_pwrite (mem : Nat → Nat) (data : List Nat) (offset : Nat) : Nat → Nat :=
  fun a =>
    if offset ≤ a ∧ a < offset + data.length then data.getD (a - offset) 0 % 256
    else mem a

/-- Modelled from the spec: xmem_pread is the external flash driver; it
reads len bytes from the absolute offset. -/
def xmem_pread (mem : Nat → Nat) (len offset : Nat) : List Nat :=
  (List.range len).map fun i => mem (offset + i)

/-- Flash state: the byte array and the static write cursor
keying_material_offset (apkes-flash.c line 45, an unsigned short). -/
structure FlashState where
  mem : Nat → Nat
  keying_material_offset : Nat

/-- apkes_flash_erase_keying_material (apkes-flash.c lines 48-53). The
base parameter is APKES_FLASH_KEYING_MATERIAL_OFFSET, whose value lives in
the absent apkes-flash.h; every theorem holds for every value. -/
def apkes_flash_erase_keying_material (base : Nat) (s : FlashState) : FlashState :=
  { mem := xmem_erase s.mem XMEM_ERASE_UNIT_SIZE base,
    keying_material_offset := 0 }

/-- apkes_flash_append_keying_material (apkes-flash.c lines 55-60): write
at the cursor, then advance the cursor (16-bit wraparound). -/
def apkes_flash_append_keying_material (base : Nat) (keying_material : List Nat)
    (s : FlashState) : FlashState :=
  { mem := xmem_pwrite s.mem keying_material (base + s.keying_material_offset),
    keying_material_offset :=
      (s.keying_material_offset + keying_material.length) % 65536 }

/-- apkes_flash_restore_keying_material (apkes-flash.c lines 62-66): read
len bytes at the caller-supplied offset; the state is passed through, the
body being a single xmem_pread. -/
def apkes_flash_restore_keying_material (base : Nat) (len offset : Nat)
    (s : FlashState) : List Nat × FlashState :=
  (xmem_pread s.mem len (base + offset), s)

/-- Fold a sequence of appends over the flash state. -/
def appendAll (base : Nat) (chunks : List (List Nat)) (s : FlashState) : FlashState :=
  chunks.foldl (fun t d => apkes_flash_append_keying_material base d t) s

/-- Fold a sequence of restores over the flash state, keeping only the
state component. -/
def runRestores (base : Nat) (ros : List (Nat × Nat)) (s : FlashState) : FlashState :=
  ros.foldl (fun t ro => (apkes_flash_restore_keying_material base ro.1 ro.2 t).2) s

/-- All-zero flash with cursor 0, used as a concrete start state. -/
def initialFlash : FlashState :=
  { mem := fun _ => 0, keying_material_offset := 0 }

/-! ### Concrete values used by witnesses -/

/-- Oracle set that answers every external call negatively. -/
def witnessEnv : HelloackEnv :=
  { get_secret_with_helloack_sender := fun _ => none,
    coresec_decrypt_verify_unicast := fun _ => false,
    anti_replay_was_replayed := true,
    neighbor_new := none,
    aes_128_padded_encrypt := fun _ m => m }

/-- A concrete PERMANENT neighbor. -/
def nPerm : Neighbor :=
  { ids := { short_addr := 3, extended_addr := 3 },
    status := .PERMANENT,
    pairwise_key := List.replicate 16 1,
    metadata := List.replicate 16 2,
    local_index := 0,
    expiration_time := 0 }

/-- A concrete TENTATIVE neighbor with 16-byte metadata. -/
def nTent : Neighbor :=
  { ids := { short_addr := 4, extended_addr := 4 },
    status := .TENTATIVE,
    pairwise_key := List.replicate 16 0,
    metadata := List.replicate 16 7,
    local_index := 1,
    expiration_time := 0 }

/-- A concrete TENTATIVE_AWAITING_ACK neighbor. -/
def nAwait : Neighbor :=
  { ids := { short_addr := 5, extended_addr := 5 },
    status := .TENTATIVE_AWAITING_ACK,
    pairwise_key := List.replicate 16 9,
    metadata := List.replicate 16 8,
    local_index := 2,
    expiration_time := 0 }

/-! ## Theorems -/

/-- C5: for every wait-timer expiry, wait_callback promotes the guarded
neighbor from TENTATIVE to TENTATIVE_AWAITING_ACK and sends a HELLOACK
exactly when the neighbor status is still TENTATIVE at expiry time; when
the status has changed the neighbor is left untouched and no HELLOACK is
sent; in every case the wait-timer slot is released back to the pool. -/
theorem wait_callback_spec (n : Neighbor) (p : Nat) :
    ((wait_callback n p).2.2 = true ↔ n.status = .TENTATIVE) ∧
    ((wait_callback n p).2.2 = true →
      (wait_callback n p).1 = { n with status := .TENTATIVE_AWAITING_ACK }) ∧
    ((wait_callback n p).2.2 = false → (wait_callback n p).1 = n) ∧
    (wait_callback n p).2.1 = p + 1 := by
  by_cases h : n.status = .TENTATIVE
  · simp [wait_callback, h]
  · simp [wait_callback, h]

/-- Witness for C5 at a concrete TENTATIVE neighbor. -/
theorem wait_callback_spec_witness :
    ((wait_callback nTent 0).2.2 = true ↔ nTent.status = .TENTATIVE) ∧
    ((wait_callback nTent 0).2.2 = true →
      (wait_callback nTent 0).1 = { nTent with status := .TENTATIVE_AWAITING_ACK }) ∧
    ((wait_callback nTent 0).2.2 = false → (wait_callback nTent 0).1 = nTent) ∧
    (wait_callback nTent 0).2.1 = 0 + 1 :=
  wait_callback_spec nTent 0

/-- C6: a HELLO whose sender is already known is a no-op: the wait-timer
slot allocated at entry is released (the free-slot count is unchanged), no
neighbor entry is created and no timer is armed; this holds for a sender
of any status, and also when no slot was available in the first place. -/
theorem on_hello_known_sender_noop (env : HelloEnv) (pool : Nat)
    (s : Neighbor) (payload : List Nat) :
    on_hello env pool (some s) payload = (pool, none) := by
  unfold on_hello
  by_cases h : pool = 0
  · simp [h]
  · have h1 : pool - 1 + 1 = pool := by omega
    simp [h, h1]

/-- C8: for every PRNG value r up to RANDOM_RAND_MAX, the 32-bit product
in the waiting-period computation of on_hello does not overflow and the
resulting delay lies in the closed interval from 0 to MAX_WAITING_PERIOD
(the lower bound holds because the value is a natural number). -/
theorem waiting_period_bounds (r : Nat) (h : r ≤ RANDOM_RAND_MAX) :
    MAX_WAITING_PERIOD * r < 2 ^ 32 ∧
    waiting_period r = MAX_WAITING_PERIOD * r / RANDOM_RAND_MAX ∧
    waiting_period r ≤ MAX_WAITING_PERIOD := by
  have h1 : MAX_WAITING_PERIOD * r ≤ MAX_WAITING_PERIOD * RANDOM_RAND_MAX :=
    Nat.mul_le_mul_left _ h
  have h2 : MAX_WAITING_PERIOD * RANDOM_RAND_MAX < 2 ^ 32 := by decide
  have h3 : MAX_WAITING_PERIOD * r < 2 ^ 32 := lt_of_le_of_lt h1 h2
  have h4 : waiting_period r = MAX_WAITING_PERIOD * r / RANDOM_RAND_MAX := by
    unfold waiting_period
    rw [Nat.mod_eq_of_lt h3]
  refine ⟨h3, h4, ?_⟩
  rw [h4]
  calc MAX_WAITING_PERIOD * r / RANDOM_RAND_MAX
      ≤ MAX_WAITING_PERIOD * RANDOM_RAND_MAX / RANDOM_RAND_MAX :=
        Nat.div_le_div_right h1
    _ = MAX_WAITING_PERIOD := Nat.mul_div_cancel _ (by decide)

/-- Witness for C8 at the maximal PRNG value. -/
theorem waiting_period_bounds_witness :
    MAX_WAITING_PERIOD * 65535 < 2 ^ 32 ∧
    waiting_period 65535 = MAX_WAITING_PERIOD * 65535 / RANDOM_RAND_MAX ∧
    waiting_period 65535 ≤ MAX_WAITING_PERIOD :=
  waiting_period_bounds 65535 (by decide)

/-- C3: the bootstrap driver broadcasts HELLO exactly ROUNDS times, each
followed by a round delay; the on_bootstrapped callback is invoked exactly
once, as the final event of the trace; at every point of the execution
from bootstrap until that final event is_bootstrapped is false and the
invocation count is zero, and after it is_bootstrapped is true and the
count is one; and is_bootstrapped holds exactly when the callback
reference is null. -/
theorem apkes_process_bootstraps_once :
    apkes_trace =
      [.helloBroadcast, .roundWait, .helloBroadcast, .roundWait,
       .helloBroadcast, .roundWait, .helloBroadcast, .roundWait,
       .helloBroadcast, .roundWait, .helloBroadcast, .roundWait,
       .bootstrappedCall] ∧
    apkes_trace.count .helloBroadcast = ROUNDS ∧
    apkes_trace.count .bootstrappedCall = 1 ∧
    (∀ k : Fin (apkes_trace.length + 1),
      ((is_bootstrapped (runBoot bootstrap (apkes_trace.take k.val)) = true) ↔
        k.val = apkes_trace.length) ∧
      (runBoot bootstrap (apkes_trace.take k.val)).calls =
        if k.val = apkes_trace.length then 1 else 0) ∧
    (∀ s : BootState, is_bootstrapped s = true ↔ s.on_bootstrapped = false) := by
  refine ⟨by decide, by decide, by decide, by decide, ?_⟩
  rintro ⟨b, c⟩
  cases b <;> simp [is_bootstrapped]

/-- C10: restores never change the flash state, in particular the write
cursor: an append performed after any sequence of restores equals the
append with no intervening restores; only erase resets the cursor (to
zero) and only append advances it (by the written length, modulo the
16-bit cursor width). -/
theorem restore_preserves_cursor (base : Nat) (ros : List (Nat × Nat))
    (s : FlashState) (d : List Nat) :
    runRestores base ros s = s ∧
    apkes_flash_append_keying_material base d (runRestores base ros s) =
      apkes_flash_append_keying_material base d s ∧
    (apkes_flash_append_keying_material base d s).keying_material_offset =
      (s.keying_material_offset + d.length) % 65536 ∧
    (apkes_flash_erase_keying_material base s).keying_material_offset = 0 := by
  have h : runRestores base ros s = s := by
    induction ros with
    | nil => rfl
    | cons r rs ih => exact ih
  exact ⟨h, by rw [h], rfl, rfl⟩

/-- C1: on_helloack drops the frame, creating or modifying no neighbor
entry and sending no ACK, unless the scheme provider returns a long-term
secret for the recovered identity, verification under the candidate key
succeeds, and the first CHALLENGE_LEN payload bytes equal our_challenge:
whenever the three conditions do not all hold the effect is drop. -/
theorem on_helloack_guard (env : HelloackEnv) (our_challenge payload : List Nat)
    (sender : Option Neighbor)
    (h : ∀ key, env.get_secret_with_helloack_sender (helloack_recover_ids payload) = some key →
      env.coresec_decrypt_verify_unicast key = false ∨
      payload.take CHALLENGE_LEN ≠ our_challenge) :
    on_helloack env our_challenge payload sender = .drop := by
  unfold on_helloack
  cases hk : env.get_secret_with_helloack_sender (helloack_recover_ids payload) with
  | none => simp [hk]
  | some key =>
    rcases h key hk with hv | hc
    · simp [hk, hv]
    · by_cases hv2 : env.coresec_decrypt_verify_unicast key = false
      · simp [hk, hv2]
      · simp [hk, hv2, hc]

/-- Witness for C1: with a provider that knows no secret, the handler
drops. -/
theorem on_helloack_guard_witness :
    on_helloack witnessEnv [] [] none = .drop :=
  on_helloack_guard witnessEnv [] [] none
    (by intro key hk; simp [witnessEnv] at hk)

/-- C7: a HELLOACK from a known PERMANENT neighbor that the anti-replay
state classifies as a replay is dropped: the neighbor entry is left
unchanged and no ACK is sent, whatever the other oracle answers are. -/
theorem on_helloack_replay_drop (env : HelloackEnv)
    (our_challenge payload : List Nat) (n : Neighbor)
    (h1 : n.status = .PERMANENT)
    (h2 : env.anti_replay_was_replayed = true) :
    on_helloack env our_challenge payload (some n) = .drop := by
  unfold on_helloack
  cases hk : env.get_secret_with_helloack_sender (helloack_recover_ids payload) with
  | none => simp [hk]
  | some key =>
    by_cases hv : env.coresec_decrypt_verify_unicast key = false
    · simp [hk, hv]
    · by_cases hc : payload.take CHALLENGE_LEN ≠ our_challenge
      · simp [hk, hv, hc]
      · simp [hk, hv, hc, h1, h2]

/-- Witness for C7 at a concrete PERMANENT neighbor and replay answer. -/
theorem on_helloack_replay_drop_witness :
    on_helloack witnessEnv [] [] (some nPerm) = .drop :=
  on_helloack_replay_drop witnessEnv [] [] nPerm rfl rfl

/-- Dropping a list after a prefix of known length. -/
theorem drop_append_len {α : Type} (A B : List α) (n : Nat) :
    (A ++ B).drop (A.length + n) = B.drop n := by
  induction A with
  | nil => simp
  | cons a as ih => simp [Nat.succ_add, ih]

/-- C2: in the configuration without EBEAP encryption, the position where
on_helloack reads the sender short address is exactly the trailing field
where send_helloack wrote it, so the identity the receiver reconstructs
equals the identity of the transmitted node_id. -/
theorem helloack_identity_roundtrip (r : Neighbor) (node_id : Nat)
    (h : r.metadata.length = 2 * CHALLENGE_LEN) :
    helloack_recover_ids (send_helloack_payload r node_id) =
      neighbor_update_ids (leBytes2 node_id) := by
  unfold helloack_recover_ids send_helloack_payload
  have hA : (r.metadata.take (2 * CHALLENGE_LEN)).length = 2 * CHALLENGE_LEN := by
    rw [List.length_take, h, Nat.min_self]
  have hdrop :
      (r.metadata.take (2 * CHALLENGE_LEN) ++
          ([r.local_index % 256] ++ leBytes2 node_id)).drop
        (2 * CHALLENGE_LEN + 1 + NEIGHBOR_BROADCAST_KEY_LEN) =
      leBytes2 node_id := by
    rw [show 2 * CHALLENGE_LEN + 1 + NEIGHBOR_BROADCAST_KEY_LEN =
          (r.metadata.take (2 * CHALLENGE_LEN)).length + 1 by rw [hA]; rfl]
    rw [drop_append_len]
    rfl
  rw [hdrop]

/-- Witness for C2 at a concrete tentative neighbor and node id. -/
theorem helloack_identity_roundtrip_witness :
    helloack_recover_ids (send_helloack_payload nTent 777) =
      neighbor_update_ids (leBytes2 777) :=
  helloack_identity_roundtrip nTent 777 (by decide)

/-- C4: on_ack calls neighbor_update, which promotes the entry to
PERMANENT, exactly when the sender is known, its status is
TENTATIVE_AWAITING_ACK and verification under its stored pairwise key
succeeds; in every other case it returns without changing anything. -/
theorem on_ack_spec (v : List Nat → Bool) (sender : Option Neighbor)
    (payload : List Nat) :
    ((on_ack v sender payload).isSome ↔
      ∃ n, sender = some n ∧ n.status = .TENTATIVE_AWAITING_ACK ∧
        v n.pairwise_key = true) ∧
    (∀ n, sender = some n → n.status = .TENTATIVE_AWAITING_ACK →
      v n.pairwise_key = true →
      on_ack v sender payload = some (neighbor_update n payload) ∧
      (neighbor_update n payload).status = .PERMANENT) := by
  constructor
  · cases sender with
    | none => simp [on_ack]
    | some n =>
      by_cases h1 : n.status = .TENTATIVE_AWAITING_ACK
      · by_cases h2 : v n.pairwise_key = true
        · simp only [on_ack, h1, h2, if_true, Option.isSome_some, true_iff]
          exact ⟨n, rfl, h1, h2⟩
        · simp only [on_ack, h1, if_true]
          rw [if_neg (by simpa using h2)]
          simp only [Option.isSome_none, Bool.false_eq_true, false_iff]
          rintro ⟨m, hm, -, hv⟩
          cases hm
          exact h2 hv
      · simp only [on_ack, h1, if_false, Option.isSome_none,
          Bool.false_eq_true, false_iff]
        rintro ⟨m, hm, hst, -⟩
        cases hm
        exact h1 hst
  · rintro n rfl h1 h2
    refine ⟨?_, rfl⟩
    simp [on_ack, h1, h2]

/-- Witness for C4 at a concrete TENTATIVE_AWAITING_ACK neighbor under an
always-verifying oracle. -/
theorem on_ack_spec_witness :
    on_ack (fun _ => true) (some nAwait) [] = some (neighbor_update nAwait []) ∧
    (neighbor_update nAwait []).status = .PERMANENT :=
  (on_ack_spec (fun _ => true) (some nAwait) []).2 nAwait rfl rfl rfl

/-- Writing an empty buffer leaves the flash unchanged. -/
theorem xmem_pwrite_nil (mem : Nat → Nat) (p : Nat) :
    xmem_pwrite mem [] p = mem := by
  funext a
  simp only [xmem_pwrite, List.length_nil, Nat.add_zero]
  rw [if_neg (by omega)]

/-- Two consecutive writes at adjacent offsets equal one write of the
concatenated buffer. -/
theorem xmem_pwrite_append (d e : List Nat) (mem : Nat → Nat) (p : Nat) :
    xmem_pwrite (xmem_pwrite mem d p) e (p + d.length) =
      xmem_pwrite mem (d ++ e) p := by
  funext a
  simp only [xmem_pwrite, List.length_append]
  by_cases h1 : p + d.length ≤ a ∧ a < p + d.length + e.length
  · rw [if_pos h1, if_pos (by omega)]
    rw [List.getD_append_right _ _ _ _ (by omega)]
    have : a - p - d.length = a - (p + d.length) := by omega
    rw [this]
  · rw [if_neg h1]
    by_cases h2 : p ≤ a ∧ a < p + d.length
    · rw [if_pos h2, if_pos (by omega)]
      rw [List.getD_append _ _ _ _ (by omega)]
    · rw [if_neg h2, if_neg (by omega)]

/-- Reading back exactly the bytes just written yields the buffer, reduced
to byte range. -/
theorem xmem_pread_pwrite (d : List Nat) (mem : Nat → Nat) (p : Nat) :
    xmem_pread (xmem_pwrite mem d p) d.length p = d.map (fun b => b % 256) := by
  apply List.ext_getElem
  · simp [xmem_pread]
  · intro i h1 h2
    simp only [xmem_pread, xmem_pwrite, List.getElem_map, List.getElem_range]
    have hi : i < d.length := by simpa [xmem_pread] using h1
    rw [if_pos (by omega)]
    have : p + i - p = i := by omega
    rw [this, List.getD_eq_getElem _ _ hi]

/-- A list of chunks whose total length is zero joins to the empty list. -/
theorem flatten_eq_nil_of_sum_len_zero (chunks : List (List Nat))
    (h : (chunks.map List.length).sum = 0) : chunks.flatten = [] := by
  apply List.eq_nil_of_length_eq_zero
  rw [List.length_flatten]
  exact h

/-- Appending a sequence of chunks whose total length fits before the
16-bit cursor wraps writes exactly the concatenation of the chunks at the
cursor position. -/
theorem appendAll_mem (base : Nat) :
    ∀ (chunks : List (List Nat)) (s : FlashState),
      s.keying_material_offset + (chunks.map List.length).sum ≤ 65536 →
      (appendAll base chunks s).mem =
        xmem_pwrite s.mem chunks.flatten (base + s.keying_material_offset) := by
  intro chunks
  induction chunks with
  | nil =>
    intro s _
    rw [show appendAll base [] s = s from rfl]
    rw [show ([] : List (List Nat)).flatten = [] from rfl, xmem_pwrite_nil]
  | cons d rest ih =>
    intro s hlen
    simp only [List.map_cons, List.sum_cons] at hlen
    have hstep : appendAll base (d :: rest) s =
        appendAll base rest (apkes_flash_append_keying_material base d s) := rfl
    set c := s.keying_material_offset with hc
    by_cases hlt : c + d.length < 65536
    · have hkmo : (apkes_flash_append_keying_material base d s).keying_material_offset
          = c + d.length := by
        simp only [apkes_flash_append_keying_material]
        exact Nat.mod_eq_of_lt hlt
      have hrest := ih (apkes_flash_append_keying_material base d s)
        (by rw [hkmo]; omega)
      rw [hstep, hrest, hkmo]
      show xmem_pwrite (xmem_pwrite s.mem d (base + c)) rest.flatten
          (base + (c + d.length)) = _
      rw [← Nat.add_assoc]
      rw [xmem_pwrite_append]
      rfl
    · have heq : c + d.length = 65536 := by omega
      have hrest0 : (rest.map List.length).sum = 0 := by omega
      have hjoin : rest.flatten = [] := flatten_eq_nil_of_sum_len_zero rest hrest0
      have hkmo : (apkes_flash_append_keying_material base d s).keying_material_offset
          = 0 := by
        simp only [apkes_flash_append_keying_material]
        rw [← hc, heq]
      have hrest := ih (apkes_flash_append_keying_material base d s)
        (by rw [hkmo]; omega)
      rw [hstep, hrest, hkmo, hjoin, xmem_pwrite_nil]
      show xmem_pwrite s.mem d (base + c) = _
      rw [show (d :: rest).flatten = d ++ rest.flatten from rfl, hjoin, List.append_nil]

/-- C9: after erase the write cursor is zero, and for every sequence of
appends of byte chunks whose total length fits in one erase unit, a
restore of the total length at offset zero reads back exactly the
concatenation of the appended chunks in append order. -/
theorem flash_append_restore_roundtrip (base : Nat) (chunks : List (List Nat))
    (s0 : FlashState)
    (hlen : (chunks.map List.length).sum ≤ XMEM_ERASE_UNIT_SIZE)
    (hbytes : ∀ c ∈ chunks, ∀ b ∈ c, b < 256) :
    (apkes_flash_erase_keying_material base s0).keying_material_offset = 0 ∧
    (apkes_flash_restore_keying_material base ((chunks.map List.length).sum) 0
        (appendAll base chunks (apkes_flash_erase_keying_material base s0))).1 =
      chunks.flatten := by
  refine ⟨rfl, ?_⟩
  have h0 : (apkes_flash_erase_keying_material base s0).keying_material_offset = 0 := rfl
  have hmem := appendAll_mem base chunks (apkes_flash_erase_keying_material base s0)
    (by rw [h0]; simpa [XMEM_ERASE_UNIT_SIZE] using hlen)
  show xmem_pread (appendAll base chunks (apkes_flash_erase_keying_material base s0)).mem
      ((chunks.map List.length).sum) (base + 0) = chunks.flatten
  rw [hmem, h0]
  have hjl : chunks.flatten.length = (chunks.map List.length).sum := List.length_flatten _
  rw [← hjl, xmem_pread_pwrite]
  have hid : ∀ b ∈ chunks.flatten, b % 256 = b := by
    intro b hb
    rcases List.mem_flatten.mp hb with ⟨c, hc, hbc⟩
    exact Nat.mod_eq_of_lt (hbytes c hc b hbc)
  calc chunks.flatten.map (fun b => b % 256)
      = chunks.flatten.map id := List.map_congr_left hid
    _ = chunks.flatten := List.map_id _

/-- Witness for C9: erase, append of the two bytes A B, append of the two
bytes C D, then restore of four bytes at offset zero yields A B C D. -/
theorem flash_append_restore_roundtrip_witness :
    (apkes_flash_erase_keying_material 0 initialFlash).keying_material_offset = 0 ∧
    (apkes_flash_restore_keying_material 0 4 0
        (appendAll 0 [[65, 66], [67, 68]]
          (apkes_flash_erase_keying_material 0 initialFlash))).1 =
      [65, 66, 67, 68] :=
  flash_append_restore_roundtrip 0 [[65, 66], [67, 68]] initialFlash
    (by decide) (by decide)

end Apkes
